/-
Verification of the proximity/safety-query subsystem of the Safe-City
repository (incident reporting web application).

Embedded source artifacts:
  * routes/incidents.js   — calculateDistance (Haversine), GET /nearby and
                            GET /recent handlers (validation, moderation
                            filtering, radius filtering).
  * public/js/safety.js   — calculateSafetyLevel (7-day window, tiering)
                            and its duplicated calculateDistance.
  * models/Incident.js    — incidentSchema.methods.distanceFrom.

Modelling conventions:
  * Real-number arithmetic stands in for IEEE doubles; the JavaScript value
    NaN and the infinities, which the claims do probe (parseFloat of a
    malformed string, comparisons that are always false on NaN), are
    modelled explicitly by the JsNum type below.
  * Timestamps are integers (milliseconds since the epoch, as produced by
    Date.getTime); Date comparison in JS compares these numbers.
  * The MongoDB calls `Incident.find({'moderation.status':'approved'})`
    and `.sort({timestamp: -1})` are modelled by List.filter and a stable
    insertion sort on the timestamp, descending.
-/
import Mathlib

set_option maxHeartbeats 1000000

/-! ## JavaScript numbers and the parseFloat builtin -/

/-- The JavaScript number values that the query-string handling can
produce: an exact rational (idealising a finite double), NaN, or a signed
infinity.  Exact rational arithmetic idealises IEEE rounding, which no
claim probes. -/
inductive JsNum where
  | nan : JsNum
  | posInf : JsNum
  | negInf : JsNum
  | num (val : ℚ) : JsNum
deriving DecidableEq

/-- Whitespace skipped by parseFloat. -/
def isWs (c : Char) : Bool := c = ' ' || c = '\t' || c = '\n' || c = '\r'

/-- Drop leading whitespace from a character list. -/
def skipWs : List Char → List Char
  | c :: cs => if isWs c then skipWs cs else c :: cs
  | [] => []

/-- Read a maximal run of decimal digits, returning the accumulated value,
the number of digits read, and the rest of the input. -/
def readDigits : List Char → ℕ → ℕ → ℕ × ℕ × List Char
  | c :: cs, acc, n =>
    if c.isDigit then readDigits cs (10 * acc + (c.toNat - 48)) (n + 1)
    else (acc, n, c :: cs)
  | [], acc, n => (acc, n, [])

/-- Read an optional exponent part (e or E, optional sign, digits); an
exponent marker not followed by digits is trailing garbage and ignored,
as in JS parseFloat. -/
def readExp : List Char → ℤ
  | 'e' :: '+' :: rest =>
    (fun r => if r.2.1 = 0 then 0 else (r.1 : ℤ)) (readDigits rest 0 0)
  | 'e' :: '-' :: rest =>
    (fun r => if r.2.1 = 0 then 0 else -(r.1 : ℤ)) (readDigits rest 0 0)
  | 'e' :: rest =>
    (fun r => if r.2.1 = 0 then 0 else (r.1 : ℤ)) (readDigits rest 0 0)
  | 'E' :: '+' :: rest =>
    (fun r => if r.2.1 = 0 then 0 else (r.1 : ℤ)) (readDigits rest 0 0)
  | 'E' :: '-' :: rest =>
    (fun r => if r.2.1 = 0 then 0 else -(r.1 : ℤ)) (readDigits rest 0 0)
  | 'E' :: rest =>
    (fun r => if r.2.1 = 0 then 0 else (r.1 : ℤ)) (readDigits rest 0 0)
  | _ => 0

/-- Does the input start with the literal word Infinity? -/
def startsWithInf : List Char → Bool
  | 'I' :: 'n' :: 'f' :: 'i' :: 'n' :: 'i' :: 't' :: 'y' :: _ => true
  | _ => false

/-- Parse sign-stripped input: Infinity, or digits / fraction / exponent.
NaN when no digit is found. -/
def parseFloatCore (cs : List Char) (neg : Bool) : JsNum :=
  if startsWithInf cs then (if neg then JsNum.negInf else JsNum.posInf)
  else
    let ipr := readDigits cs 0 0
    let fpr := match ipr.2.2 with
      | '.' :: rest => readDigits rest 0 0
      | _ => (0, 0, ipr.2.2)
    if ipr.2.1 = 0 ∧ fpr.2.1 = 0 then JsNum.nan
    else
      let mant : ℚ := (ipr.1 : ℚ) + (fpr.1 : ℚ) / (10 : ℚ) ^ fpr.2.1
      let v : ℚ := mant * (10 : ℚ) ^ readExp fpr.2.2
      JsNum.num (if neg then -v else v)

/-- Model of the JavaScript parseFloat builtin: skip leading whitespace,
optional sign, then the longest numeric prefix (Infinity, or digits with
optional fraction and exponent); trailing garbage is ignored; NaN when no
numeric prefix exists.  Values are exact rationals (see file header). -/
def parseFloat (s : String) : JsNum :=
  match skipWs s.data with
  | '-' :: cs => parseFloatCore cs true
  | '+' :: cs => parseFloatCore cs false
  | cs => parseFloatCore cs false

/-- JS comparison `v < c` against a finite literal: false on NaN,
true on -Infinity, false on Infinity. -/
def jsLt (v : JsNum) (c : ℚ) : Bool :=
  match v with
  | JsNum.num x => decide (x < c)
  | JsNum.negInf => true
  | JsNum.posInf => false
  | JsNum.nan => false

/-- JS comparison `v > c` against a finite literal: false on NaN,
true on Infinity, false on -Infinity. -/
def jsGt (v : JsNum) (c : ℚ) : Bool :=
  match v with
  | JsNum.num x => decide (c < x)
  | JsNum.negInf => false
  | JsNum.posInf => true
  | JsNum.nan => false

/-! ## Data model -/

/-- Moderation states of an incident (models `moderation.status`). -/
inductive Moderation where
  | pending : Moderation
  | approved : Moderation
  | rejected : Moderation
  | flagged : Moderation
deriving DecidableEq

/-- The incident fields the proximity/safety core reads: coordinates,
timestamp (epoch milliseconds) and moderation status. -/
structure Incident where
  latitude : ℝ
  longitude : ℝ
  timestamp : ℤ
  moderationStatus : Moderation

/-- A point in decimal degrees (spec §3, value type GeoPoint). -/
structure GeoPoint where
  lat : ℝ
  lng : ℝ

/-- A proximity query: center plus inclusive radius in meters (spec §3). -/
structure ProximityQuery where
  center : GeoPoint
  radiusMeters : ℝ

/-! ## Distance computation -/

/-- Two-argument arctangent, modelling JS Math.atan2 on its principal
branches (the signed-zero distinction of IEEE, which no claim probes, is
collapsed to 0). -/
noncomputable def atan2 (y x : ℝ) : ℝ :=
  if 0 < x then Real.arctan (y / x)
  else if x < 0 then
    (if 0 ≤ y then Real.arctan (y / x) + Real.pi
     else Real.arctan (y / x) - Real.pi)
  else
    (if 0 < y then Real.pi / 2
     else if y < 0 then -(Real.pi / 2)
     else 0)

/-- The intermediate `a` of routes/incidents.js calculateDistance
(lines 12-19): sin(Δφ/2)·sin(Δφ/2) + cos φ1 · cos φ2 · sin(Δλ/2)·sin(Δλ/2)
with φ in radians. -/
noncomputable def haversineA (lat1 lon1 lat2 lon2 : ℝ) : ℝ :=
  Real.sin ((lat2 - lat1) * (Real.pi / 180) / 2)
      * Real.sin ((lat2 - lat1) * (Real.pi / 180) / 2)
    + Real.cos (lat1 * (Real.pi / 180)) * Real.cos (lat2 * (Real.pi / 180))
      * (Real.sin ((lon2 - lon1) * (Real.pi / 180) / 2)
          * Real.sin ((lon2 - lon1) * (Real.pi / 180) / 2))

/-- calculateDistance of routes/incidents.js (lines 10-23):
c = 2·atan2(√a, √(1-a)); return R·c with R = 6371e3 meters. -/
noncomputable def calculateDistance (lat1 lon1 lat2 lon2 : ℝ) : ℝ :=
  6371000 *
    (2 * atan2 (Real.sqrt (haversineA lat1 lon1 lat2 lon2))
      (Real.sqrt (1 - haversineA lat1 lon1 lat2 lon2)))

/-- The duplicated calculateDistance of public/js/safety.js
(lines 376-389); textually the same computation as the route helper. -/
noncomputable def clientCalculateDistance (lat1 lon1 lat2 lon2 : ℝ) : ℝ :=
  6371000 *
    (2 * atan2
      (Real.sqrt
        (Real.sin ((lat2 - lat1) * (Real.pi / 180) / 2)
            * Real.sin ((lat2 - lat1) * (Real.pi / 180) / 2)
          + Real.cos (lat1 * (Real.pi / 180)) * Real.cos (lat2 * (Real.pi / 180))
            * (Real.sin ((lon2 - lon1) * (Real.pi / 180) / 2)
                * Real.sin ((lon2 - lon1) * (Real.pi / 180) / 2))))
      (Real.sqrt
        (1 -
          (Real.sin ((lat2 - lat1) * (Real.pi / 180) / 2)
              * Real.sin ((lat2 - lat1) * (Real.pi / 180) / 2)
            + Real.cos (lat1 * (Real.pi / 180)) * Real.cos (lat2 * (Real.pi / 180))
              * (Real.sin ((lon2 - lon1) * (Real.pi / 180) / 2)
                  * Real.sin ((lon2 - lon1) * (Real.pi / 180) / 2))))))

/-- incidentSchema.methods.distanceFrom of models/Incident.js
(lines 134-147): φ1 from the argument point, φ2 from the incident,
Δφ = this.latitude - lat, Δλ = this.longitude - lng. -/
noncomputable def Incident.distanceFrom (inc : Incident) (lat lng : ℝ) : ℝ :=
  6371000 *
    (2 * atan2
      (Real.sqrt
        (Real.sin ((inc.latitude - lat) * (Real.pi / 180) / 2)
            * Real.sin ((inc.latitude - lat) * (Real.pi / 180) / 2)
          + Real.cos (lat * (Real.pi / 180)) * Real.cos (inc.latitude * (Real.pi / 180))
            * (Real.sin ((inc.longitude - lng) * (Real.pi / 180) / 2)
                * Real.sin ((inc.longitude - lng) * (Real.pi / 180) / 2))))
      (Real.sqrt
        (1 -
          (Real.sin ((inc.latitude - lat) * (Real.pi / 180) / 2)
              * Real.sin ((inc.latitude - lat) * (Real.pi / 180) / 2)
            + Real.cos (lat * (Real.pi / 180)) * Real.cos (inc.latitude * (Real.pi / 180))
              * (Real.sin ((inc.longitude - lng) * (Real.pi / 180) / 2)
                  * Real.sin ((inc.longitude - lng) * (Real.pi / 180) / 2))))))

/-- The h of the spec formula (§4.1), written with squares as the spec
does: h = sin²(Δφ/2) + cos φ1 · cos φ2 · sin²(Δλ/2). -/
noncomputable def specH (a b : GeoPoint) : ℝ :=
  Real.sin ((b.lat - a.lat) * (Real.pi / 180) / 2) ^ 2
    + Real.cos (a.lat * (Real.pi / 180)) * Real.cos (b.lat * (Real.pi / 180))
      * Real.sin ((b.lng - a.lng) * (Real.pi / 180) / 2) ^ 2

/-- The spec distance formula (§4.1): 2·R·atan2(√h, √(1-h)),
R = 6,371,000 meters, degrees converted to radians by π/180. -/
noncomputable def specDistance (a b : GeoPoint) : ℝ :=
  2 * 6371000 * atan2 (Real.sqrt (specH a b)) (Real.sqrt (1 - specH a b))

/-! ## Repository scan, sorting, filtering -/

/-- Stable insertion step for sorting by timestamp, descending (models
the MongoDB sort `{timestamp: -1}` applied to the fetched incidents). -/
def insertByTsDesc (inc : Incident) : List Incident → List Incident
  | [] => [inc]
  | j :: rest =>
    if j.timestamp < inc.timestamp then inc :: j :: rest
    else j :: insertByTsDesc inc rest

/-- Stable sort by timestamp, descending. -/
def sortByTsDesc : List Incident → List Incident
  | [] => []
  | i :: rest => insertByTsDesc i (sortByTsDesc rest)

/-- The nearbyIncidents filter of routes/incidents.js (lines 164-170):
keep a candidate iff its Haversine distance from the query center is at
most the radius (inclusive).  This is the spec ProximityFilter contract
filterNearby(candidates, query) (§4.2). -/
noncomputable def filterNearby (candidates : List Incident) (q : ProximityQuery) :
    List Incident :=
  candidates.filter fun inc =>
    @decide
      (calculateDistance q.center.lat q.center.lng inc.latitude inc.longitude
        ≤ q.radiusMeters)
      (Classical.propDecidable _)

/-- The repository-side temporal pre-filter of the /recent handler
(`timestamp: {$gte: sinceDate}`, routes/incidents.js line 201): keep
incidents with timestamp ≥ since. -/
def temporalFilter (since : ℤ) (l : List Incident) : List Incident :=
  l.filter fun inc => decide (since ≤ inc.timestamp)

/-- NearbyQuery with parsed-numeric inputs (routes/incidents.js
lines 160-170): fetch approved incidents sorted by timestamp descending,
then apply the radius filter. -/
noncomputable def nearbyQuery (repo : List Incident) (latitude longitude radius : ℝ) :
    List Incident :=
  filterNearby
    (sortByTsDesc (repo.filter fun inc => decide (inc.moderationStatus = Moderation.approved)))
    ⟨⟨latitude, longitude⟩, radius⟩

/-- RecentQuery with parsed-numeric inputs (routes/incidents.js
lines 196-211): fetch approved incidents with timestamp ≥ since, sorted
descending, then apply the radius filter. -/
noncomputable def recentQuery (repo : List Incident) (latitude longitude radius : ℝ)
    (since : ℤ) : List Incident :=
  filterNearby
    (sortByTsDesc (repo.filter fun inc =>
      decide (since ≤ inc.timestamp) && decide (inc.moderationStatus = Moderation.approved)))
    ⟨⟨latitude, longitude⟩, radius⟩

/-! ## Safety classifier (public/js/safety.js lines 144-177) -/

/-- The three safety tiers. -/
inductive SafetyLevel where
  | safe : SafetyLevel
  | warning : SafetyLevel
  | danger : SafetyLevel
deriving DecidableEq

/-- Result record of calculateSafetyLevel: tier, display color and
description, windowed incident count, and the windowed incident list. -/
structure SafetyResult where
  level : SafetyLevel
  color : String
  description : String
  incidentCount : ℕ
  recentIncidents : List Incident

/-- calculateSafetyLevel of public/js/safety.js (lines 144-177):
oneWeekAgo = now - 7·24·60·60·1000 ms; keep incidents with
timestamp > oneWeekAgo (strict); tier by count: 0 → safe, ≤2 → warning,
else danger. -/
def calculateSafetyLevel (incidents : List Incident) (now : ℤ) : SafetyResult :=
  let oneWeekAgo : ℤ := now - 7 * 24 * 60 * 60 * 1000
  let recentIncidents := incidents.filter fun inc => decide (oneWeekAgo < inc.timestamp)
  let count := recentIncidents.length
  if count = 0 then
    ⟨SafetyLevel.safe, "#4CAF50", "Safe Zone - No recent incidents reported",
      count, recentIncidents⟩
  else if count ≤ 2 then
    ⟨SafetyLevel.warning, "#FFC107", "Alert Zone - Few incidents reported recently",
      count, recentIncidents⟩
  else
    ⟨SafetyLevel.danger, "#F44336", "High Risk Zone - Multiple incidents reported",
      count, recentIncidents⟩

/-- SafetyQuery (spec §4.4): the click-to-analyze flow of safety.js
fetches /api/incidents/nearby with radius 1000 and classifies the result
as of the wall clock now. -/
noncomputable def safetyQuery (repo : List Incident) (latitude longitude : ℝ)
    (now : ℤ) : SafetyResult :=
  calculateSafetyLevel (nearbyQuery repo latitude longitude 1000) now

/-! ## HTTP handlers (routes/incidents.js, /nearby and /recent) -/

/-- Query parameters of GET /api/incidents/nearby as they arrive: raw
strings, each possibly absent. -/
structure NearbyParams where
  lat : Option String
  lng : Option String
  radius : Option String

/-- Query parameters of GET /api/incidents/recent.  The since parameter
is modelled already converted to epoch milliseconds (`new Date(since)`
parsing of the ISO string is a platform concern no claim probes). -/
structure RecentParams where
  lat : Option String
  lng : Option String
  radius : Option String
  since : Option ℤ

/-- Response body: either a JSON error object or a JSON incident array. -/
inductive RespBody where
  | errorMsg (msg : String) : RespBody
  | incidents (l : List Incident) : RespBody

/-- An HTTP response: status code and body. -/
structure Response where
  status : ℕ
  body : RespBody

/-- Distance computation as the handler performs it on parsed query
values: a non-finite parsed coordinate yields NaN (Math.sin of NaN or
±Infinity is NaN, which propagates), modelled as none. -/
noncomputable def jsDistance (a b : JsNum) (lat2 lon2 : ℝ) : Option ℝ :=
  match a, b with
  | JsNum.num x, JsNum.num y => some (calculateDistance (x : ℝ) (y : ℝ) lat2 lon2)
  | _, _ => none

/-- JS comparison `distance <= searchRadius`: false whenever either side
is NaN; an Infinity radius admits every finite distance. -/
noncomputable def jsLe (d : Option ℝ) (r : JsNum) : Bool :=
  match d, r with
  | none, _ => false
  | some _, JsNum.nan => false
  | some _, JsNum.posInf => true
  | some _, JsNum.negInf => false
  | some x, JsNum.num y => @decide (x ≤ (y : ℝ)) (Classical.propDecidable _)

/-- GET /api/incidents/nearby handler (routes/incidents.js lines 139-177):
missing or empty lat/lng → 400; out-of-range parsed coordinates → 400
(NaN passes both checks, as every comparison on NaN is false); otherwise
fetch approved incidents sorted by timestamp descending and keep those
within the parsed radius. -/
noncomputable def nearbyHandler (repo : List Incident) (q : NearbyParams) : Response :=
  match q.lat, q.lng with
  | some la, some ln =>
    if la = "" ∨ ln = "" then
      Response.mk 400 (RespBody.errorMsg "Missing required parameters: lat, lng")
    else
      let latitude := parseFloat la
      let longitude := parseFloat ln
      let searchRadius := match q.radius with
        | some r => parseFloat r
        | none => JsNum.num 1000
      if jsLt latitude (-90) || jsGt latitude 90
          || jsLt longitude (-180) || jsGt longitude 180 then
        Response.mk 400 (RespBody.errorMsg "Invalid coordinates")
      else
        let allIncidents := sortByTsDesc
          (repo.filter fun inc => decide (inc.moderationStatus = Moderation.approved))
        let nearbyIncidents := allIncidents.filter fun inc =>
          jsLe (jsDistance latitude longitude inc.latitude inc.longitude) searchRadius
        Response.mk 200 (RespBody.incidents nearbyIncidents)
  | _, _ => Response.mk 400 (RespBody.errorMsg "Missing required parameters: lat, lng")

/-- GET /api/incidents/recent handler (routes/incidents.js lines 179-218):
same validation as /nearby; the repository fetch additionally requires
timestamp ≥ since (default: now minus 5 minutes); then the same radius
filter. -/
noncomputable def recentHandler (repo : List Incident) (now : ℤ) (q : RecentParams) :
    Response :=
  match q.lat, q.lng with
  | some la, some ln =>
    if la = "" ∨ ln = "" then
      Response.mk 400 (RespBody.errorMsg "Missing required parameters: lat, lng")
    else
      let latitude := parseFloat la
      let longitude := parseFloat ln
      let searchRadius := match q.radius with
        | some r => parseFloat r
        | none => JsNum.num 1000
      if jsLt latitude (-90) || jsGt latitude 90
          || jsLt longitude (-180) || jsGt longitude 180 then
        Response.mk 400 (RespBody.errorMsg "Invalid coordinates")
      else
        let sinceDate := match q.since with
          | some s => s
          | none => now - 5 * 60 * 1000
        let recentIncidents := sortByTsDesc (repo.filter fun inc =>
          decide (sinceDate ≤ inc.timestamp)
            && decide (inc.moderationStatus = Moderation.approved))
        let nearbyRecentIncidents := recentIncidents.filter fun inc =>
          jsLe (jsDistance latitude longitude inc.latitude inc.longitude) searchRadius
        Response.mk 200 (RespBody.incidents nearbyRecentIncidents)
  | _, _ => Response.mk 400 (RespBody.errorMsg "Missing required parameters: lat, lng")

/-! ## Helper lemmas -/

/-- Insertion keeps exactly the old elements plus the inserted one. -/
theorem mem_insertByTsDesc (inc a : Incident) (l : List Incident) :
    a ∈ insertByTsDesc inc l ↔ a = inc ∨ a ∈ l := by
  induction l with
  | nil => simp [insertByTsDesc]
  | cons j rest ih =>
    simp only [insertByTsDesc]
    split
    · simp [List.mem_cons]
    · simp only [List.mem_cons, ih]
      tauto

/-- Sorting by timestamp reorders but neither adds nor removes incidents. -/
theorem mem_sortByTsDesc (a : Incident) (l : List Incident) :
    a ∈ sortByTsDesc l ↔ a ∈ l := by
  induction l with
  | nil => simp [sortByTsDesc]
  | cons i rest ih => simp [sortByTsDesc, mem_insertByTsDesc, ih]

/-- The windowed list the classifier returns is the 7-day filter of its
input, whatever tier branch is taken. -/
theorem calculateSafetyLevel_recentIncidents (incidents : List Incident) (now : ℤ) :
    (calculateSafetyLevel incidents now).recentIncidents
      = incidents.filter fun inc =>
          decide (now - 7 * 24 * 60 * 60 * 1000 < inc.timestamp) := by
  simp only [calculateSafetyLevel]
  split
  · rfl
  · split <;> rfl

/-- A filter whose predicate is everywhere false returns the empty list. -/
theorem filter_false_of_pred_false {α : Type} (l : List α) (p : α → Bool)
    (h : ∀ a, p a = false) : l.filter p = [] := by
  induction l with
  | nil => rfl
  | cons a t ih => simp [List.filter_cons, h a, ih]

/-! ## Claim theorems -/

/-- C1: for every sequence of nearby approved incidents and every instant
asOf, the SafetyClassifier counts exactly the incidents with
timestamp > asOf - 7 days (strict boundary: an incident exactly 7 days
old or older is not counted), stores that count (windowIncidentCount is
the incidentCount field of the source), and assigns tier safe iff the
count is 0, warning iff it is 1 or 2, and danger iff it is at least 3. -/
theorem safetyClassifier_window_and_tiers (incidents : List Incident) (asOf : ℤ) :
    (calculateSafetyLevel incidents asOf).recentIncidents
        = incidents.filter (fun inc =>
            decide (asOf - 7 * 24 * 60 * 60 * 1000 < inc.timestamp))
    ∧ (calculateSafetyLevel incidents asOf).incidentCount
        = (incidents.filter (fun inc =>
            decide (asOf - 7 * 24 * 60 * 60 * 1000 < inc.timestamp))).length
    ∧ ((calculateSafetyLevel incidents asOf).level = SafetyLevel.safe
        ↔ (calculateSafetyLevel incidents asOf).incidentCount = 0)
    ∧ ((calculateSafetyLevel incidents asOf).level = SafetyLevel.warning
        ↔ ((calculateSafetyLevel incidents asOf).incidentCount = 1
            ∨ (calculateSafetyLevel incidents asOf).incidentCount = 2))
    ∧ ((calculateSafetyLevel incidents asOf).level = SafetyLevel.danger
        ↔ 3 ≤ (calculateSafetyLevel incidents asOf).incidentCount) := by
  simp only [calculateSafetyLevel]
  split
  next h0 =>
    exact ⟨rfl, rfl, iff_of_true rfl h0,
      iff_of_false (fun h => SafetyLevel.noConfusion h) (by dsimp only; omega),
      iff_of_false (fun h => SafetyLevel.noConfusion h) (by dsimp only; omega)⟩
  next h0 =>
    split
    next h2 =>
      exact ⟨rfl, rfl, iff_of_false (fun h => SafetyLevel.noConfusion h) (by dsimp only; omega),
        iff_of_true rfl (by dsimp only; omega),
        iff_of_false (fun h => SafetyLevel.noConfusion h) (by dsimp only; omega)⟩
    next h2 =>
      exact ⟨rfl, rfl, iff_of_false (fun h => SafetyLevel.noConfusion h) (by dsimp only; omega),
        iff_of_false (fun h => SafetyLevel.noConfusion h) (by dsimp only; omega),
        iff_of_true rfl (by dsimp only; omega)⟩

/-- C3: filterNearby returns exactly the candidates whose distance from
the query center is at most radiusMeters (boundary inclusive), as an
order-preserving subsequence of its input, and the empty candidate list
yields the empty result. -/
theorem filterNearby_spec (candidates : List Incident) (q : ProximityQuery) :
    List.Sublist (filterNearby candidates q) candidates
    ∧ (∀ inc, inc ∈ filterNearby candidates q ↔
        inc ∈ candidates ∧
          calculateDistance q.center.lat q.center.lng inc.latitude inc.longitude
            ≤ q.radiusMeters)
    ∧ filterNearby ([] : List Incident) q = [] := by
  refine ⟨List.filter_sublist _, fun inc => ?_, rfl⟩
  simp [filterNearby, List.mem_filter]

/-- C7: the temporal filter (timestamp ≥ since) and the spatial filter
(distance ≤ radius) commute: applying them in either order yields the
same result list. -/
theorem temporal_spatial_filters_commute (incidents : List Incident)
    (q : ProximityQuery) (since : ℤ) :
    filterNearby (temporalFilter since incidents) q
      = temporalFilter since (filterNearby incidents q) := by
  simp only [filterNearby, temporalFilter, List.filter_filter]
  congr 1
  funext inc
  exact Bool.and_comm _ _

/-- C2: no incident whose moderation status differs from approved ever
appears in a NearbyQuery, RecentQuery or SafetyQuery result: every
incident in those results is approved, for every repository state, query
point, radius, since-instant and clock. -/
theorem moderation_gating (repo : List Incident) (latitude longitude radius : ℝ)
    (since now : ℤ) :
    ((nearbyQuery repo latitude longitude radius).all
      fun inc => decide (inc.moderationStatus = Moderation.approved)) = true
    ∧ ((recentQuery repo latitude longitude radius since).all
      fun inc => decide (inc.moderationStatus = Moderation.approved)) = true
    ∧ (((safetyQuery repo latitude longitude now).recentIncidents).all
      fun inc => decide (inc.moderationStatus = Moderation.approved)) = true := by
  have hnear : ∀ inc, inc ∈ nearbyQuery repo latitude longitude 1000 ∨
      inc ∈ nearbyQuery repo latitude longitude radius →
      inc.moderationStatus = Moderation.approved := by
    intro inc hi
    rcases hi with hi | hi <;>
    · simp only [nearbyQuery, filterNearby, List.mem_filter, mem_sortByTsDesc,
        decide_eq_true_eq] at hi
      exact hi.1.2
  refine ⟨?_, ?_, ?_⟩
  · simp only [List.all_eq_true, decide_eq_true_eq]
    intro inc hi
    exact hnear inc (Or.inr hi)
  · simp only [List.all_eq_true, decide_eq_true_eq]
    intro inc hi
    simp only [recentQuery, filterNearby, List.mem_filter, mem_sortByTsDesc,
      Bool.and_eq_true, decide_eq_true_eq] at hi
    exact hi.1.2.2
  · simp only [List.all_eq_true, decide_eq_true_eq]
    intro inc hi
    simp only [safetyQuery, calculateSafetyLevel_recentIncidents,
      List.mem_filter] at hi
    exact hnear inc (Or.inl hi.1)

/-- C4: the route helper, the client duplicate and the Incident method
all compute the spec formula of §4.1 (law of haversines, R = 6,371,000 m,
degrees to radians by π/180, distance = 2·R·atan2(√h, √(1-h))). -/
theorem distance_implementations_agree (lat1 lon1 lat2 lon2 lat lng : ℝ)
    (inc : Incident) :
    calculateDistance lat1 lon1 lat2 lon2 = specDistance ⟨lat1, lon1⟩ ⟨lat2, lon2⟩
    ∧ clientCalculateDistance lat1 lon1 lat2 lon2
        = specDistance ⟨lat1, lon1⟩ ⟨lat2, lon2⟩
    ∧ inc.distanceFrom lat lng
        = specDistance ⟨lat, lng⟩ ⟨inc.latitude, inc.longitude⟩ := by
  have key : ∀ a b c d : ℝ,
      calculateDistance a b c d = specDistance ⟨a, b⟩ ⟨c, d⟩ := by
    intro a b c d
    have hh : haversineA a b c d = specH ⟨a, b⟩ ⟨c, d⟩ := by
      simp only [haversineA, specH]
      ring
    simp only [calculateDistance, specDistance, hh]
    ring
  exact ⟨key lat1 lon1 lat2 lon2,
    (show clientCalculateDistance lat1 lon1 lat2 lon2
        = calculateDistance lat1 lon1 lat2 lon2 from rfl).trans
      (key lat1 lon1 lat2 lon2),
    (show inc.distanceFrom lat lng
        = calculateDistance lat lng inc.latitude inc.longitude from rfl).trans
      (key lat lng inc.latitude inc.longitude)⟩

/-- C5: the distance function is symmetric in its two points, and the
distance from any point to itself is exactly 0. -/
theorem distance_symm_and_identity (lat1 lon1 lat2 lon2 : ℝ) :
    calculateDistance lat1 lon1 lat2 lon2 = calculateDistance lat2 lon2 lat1 lon1
    ∧ calculateDistance lat1 lon1 lat1 lon1 = 0 := by
  constructor
  · have hh : haversineA lat1 lon1 lat2 lon2 = haversineA lat2 lon2 lat1 lon1 := by
      simp only [haversineA]
      have e1 : (lat1 - lat2) * (Real.pi / 180) / 2
          = -((lat2 - lat1) * (Real.pi / 180) / 2) := by ring
      have e2 : (lon1 - lon2) * (Real.pi / 180) / 2
          = -((lon2 - lon1) * (Real.pi / 180) / 2) := by ring
      rw [e1, e2, Real.sin_neg, Real.sin_neg]
      ring
    simp only [calculateDistance, hh]
  · have hzero : haversineA lat1 lon1 lat1 lon1 = 0 := by
      simp [haversineA]
    simp only [calculateDistance, hzero, Real.sqrt_zero, sub_zero, Real.sqrt_one]
    simp [atan2, Real.arctan_zero]

/-- For nonnegative arguments, atan2 stays in the first quadrant. -/
theorem atan2_nonneg_le_pi_div_two (y x : ℝ) (hy : 0 ≤ y) (hx : 0 ≤ x) :
    0 ≤ atan2 y x ∧ atan2 y x ≤ Real.pi / 2 := by
  unfold atan2
  rcases lt_or_eq_of_le hx with h | h
  · rw [if_pos h]
    constructor
    · have h0 : Real.arctan 0 ≤ Real.arctan (y / x) :=
        Real.arctan_strictMono.monotone (div_nonneg hy h.le)
      rwa [Real.arctan_zero] at h0
    · exact (Real.arctan_lt_pi_div_two _).le
  · rw [if_neg (by rw [← h]; exact lt_irrefl 0),
      if_neg (by rw [← h]; exact lt_irrefl 0)]
    rcases lt_or_eq_of_le hy with hy' | hy'
    · rw [if_pos hy']
      exact ⟨div_nonneg Real.pi_pos.le (by norm_num), le_refl _⟩
    · rw [if_neg (by rw [← hy']; exact lt_irrefl 0),
        if_neg (by rw [← hy']; exact lt_irrefl 0)]
      exact ⟨le_refl _, div_nonneg Real.pi_pos.le (by norm_num)⟩

/-- For in-range latitudes the haversine intermediate lies in [0, 1]. -/
theorem haversineA_bounds (lat1 lon1 lat2 lon2 : ℝ)
    (h1 : -90 ≤ lat1) (h2 : lat1 ≤ 90) (h3 : -90 ≤ lat2) (h4 : lat2 ≤ 90) :
    0 ≤ haversineA lat1 lon1 lat2 lon2 ∧ haversineA lat1 lon1 lat2 lon2 ≤ 1 := by
  have h180 : (0 : ℝ) < Real.pi / 180 := by positivity
  have hc1 : 0 ≤ Real.cos (lat1 * (Real.pi / 180)) := by
    apply Real.cos_nonneg_of_neg_pi_div_two_le_of_le
    · have := mul_le_mul_of_nonneg_right h1 h180.le
      linarith
    · have := mul_le_mul_of_nonneg_right h2 h180.le
      linarith
  have hc2 : 0 ≤ Real.cos (lat2 * (Real.pi / 180)) := by
    apply Real.cos_nonneg_of_neg_pi_div_two_le_of_le
    · have := mul_le_mul_of_nonneg_right h3 h180.le
      linarith
    · have := mul_le_mul_of_nonneg_right h4 h180.le
      linarith
  constructor
  · have ha := mul_self_nonneg (Real.sin ((lat2 - lat1) * (Real.pi / 180) / 2))
    have hb := mul_nonneg (mul_nonneg hc1 hc2)
      (mul_self_nonneg (Real.sin ((lon2 - lon1) * (Real.pi / 180) / 2)))
    unfold haversineA
    linarith
  · have hs1 : Real.sin ((lat2 - lat1) * (Real.pi / 180) / 2)
        * Real.sin ((lat2 - lat1) * (Real.pi / 180) / 2)
        = 1 / 2 - Real.cos (lat2 * (Real.pi / 180) - lat1 * (Real.pi / 180)) / 2 := by
      have hsq := Real.sin_sq_eq_half_sub ((lat2 - lat1) * (Real.pi / 180) / 2)
      have h2x : 2 * ((lat2 - lat1) * (Real.pi / 180) / 2)
          = lat2 * (Real.pi / 180) - lat1 * (Real.pi / 180) := by ring
      rw [h2x] at hsq
      linear_combination hsq
    have hcsub := Real.cos_sub (lat2 * (Real.pi / 180)) (lat1 * (Real.pi / 180))
    have hcadd := Real.cos_add (lat1 * (Real.pi / 180)) (lat2 * (Real.pi / 180))
    have hle := Real.cos_le_one (lat1 * (Real.pi / 180) + lat2 * (Real.pi / 180))
    have hs2 : Real.sin ((lon2 - lon1) * (Real.pi / 180) / 2)
        * Real.sin ((lon2 - lon1) * (Real.pi / 180) / 2) ≤ 1 := by
      nlinarith [Real.sin_le_one ((lon2 - lon1) * (Real.pi / 180) / 2),
        Real.neg_one_le_sin ((lon2 - lon1) * (Real.pi / 180) / 2)]
    have hCs : Real.cos (lat1 * (Real.pi / 180)) * Real.cos (lat2 * (Real.pi / 180))
        * (Real.sin ((lon2 - lon1) * (Real.pi / 180) / 2)
            * Real.sin ((lon2 - lon1) * (Real.pi / 180) / 2))
        ≤ Real.cos (lat1 * (Real.pi / 180)) * Real.cos (lat2 * (Real.pi / 180)) :=
      mul_le_of_le_one_right (mul_nonneg hc1 hc2) hs2
    unfold haversineA
    nlinarith [hs1, hcsub, hcadd, hle, hCs]

/-- C10: in exact real arithmetic, for in-range coordinates the haversine
intermediate lies in [0,1] and the computed distance is nonnegative and
at most π·R (half the circumference, about 20,015,087 m). -/
theorem distance_bounds (lat1 lon1 lat2 lon2 : ℝ)
    (h1 : -90 ≤ lat1) (h2 : lat1 ≤ 90) (h3 : -90 ≤ lat2) (h4 : lat2 ≤ 90)
    (h5 : -180 ≤ lon1) (h6 : lon1 ≤ 180) (h7 : -180 ≤ lon2) (h8 : lon2 ≤ 180) :
    0 ≤ haversineA lat1 lon1 lat2 lon2 ∧ haversineA lat1 lon1 lat2 lon2 ≤ 1
    ∧ 0 ≤ calculateDistance lat1 lon1 lat2 lon2
    ∧ calculateDistance lat1 lon1 lat2 lon2 ≤ Real.pi * 6371000 := by
  obtain ⟨ha0, ha1⟩ := haversineA_bounds lat1 lon1 lat2 lon2 h1 h2 h3 h4
  obtain ⟨ht0, ht1⟩ := atan2_nonneg_le_pi_div_two
    (Real.sqrt (haversineA lat1 lon1 lat2 lon2))
    (Real.sqrt (1 - haversineA lat1 lon1 lat2 lon2))
    (Real.sqrt_nonneg _) (Real.sqrt_nonneg _)
  refine ⟨ha0, ha1, ?_, ?_⟩ <;> unfold calculateDistance <;> linarith

/-- Witness for C10 at the concrete in-range point (0,0)-(0,0). -/
theorem distance_bounds_witness :
    0 ≤ haversineA 0 0 0 0 ∧ haversineA 0 0 0 0 ≤ 1
    ∧ 0 ≤ calculateDistance 0 0 0 0
    ∧ calculateDistance 0 0 0 0 ≤ Real.pi * 6371000 :=
  distance_bounds 0 0 0 0 (by norm_num) (by norm_num) (by norm_num) (by norm_num)
    (by norm_num) (by norm_num) (by norm_num) (by norm_num)

/-- Comparing anything to a NaN radius is false. -/
theorem jsLe_nan (d : Option ℝ) : jsLe d JsNum.nan = false := by
  cases d <;> rfl

/-- Comparing a NaN distance to anything is false. -/
theorem jsLe_none (r : JsNum) : jsLe none r = false := by
  cases r <;> rfl

/-- A NaN first coordinate makes the distance NaN. -/
theorem jsDistance_nan_left (b : JsNum) (x y : ℝ) :
    jsDistance JsNum.nan b x y = none := by
  cases b <;> rfl

/-- A NaN second coordinate makes the distance NaN. -/
theorem jsDistance_nan_right (a : JsNum) (x y : ℝ) :
    jsDistance a JsNum.nan x y = none := by
  cases a <;> rfl

/-- C6: a nearby/recent request with lat or lng absent is answered
HTTP 400 "Missing required parameters: lat, lng"; one whose parsed
latitude is outside [-90,90] or parsed longitude outside [-180,180] is
answered HTTP 400 "Invalid coordinates".  Both equalities hold for every
repository state with a response that does not mention the repository, so
the error is produced without consulting the repository (fail fast). -/
theorem request_validation_fail_fast (repo : List Incident) (now : ℤ)
    (q : NearbyParams) (qr : RecentParams) :
    (q.lat = none ∨ q.lng = none →
      nearbyHandler repo q
        = Response.mk 400 (RespBody.errorMsg "Missing required parameters: lat, lng"))
    ∧ (qr.lat = none ∨ qr.lng = none →
      recentHandler repo now qr
        = Response.mk 400 (RespBody.errorMsg "Missing required parameters: lat, lng"))
    ∧ (∀ la ln, q.lat = some la → q.lng = some ln → la ≠ "" → ln ≠ "" →
        ((∃ x, parseFloat la = JsNum.num x ∧ (x < -90 ∨ 90 < x)) ∨
         (∃ y, parseFloat ln = JsNum.num y ∧ (y < -180 ∨ 180 < y))) →
        nearbyHandler repo q
          = Response.mk 400 (RespBody.errorMsg "Invalid coordinates"))
    ∧ (∀ la ln, qr.lat = some la → qr.lng = some ln → la ≠ "" → ln ≠ "" →
        ((∃ x, parseFloat la = JsNum.num x ∧ (x < -90 ∨ 90 < x)) ∨
         (∃ y, parseFloat ln = JsNum.num y ∧ (y < -180 ∨ 180 < y))) →
        recentHandler repo now qr
          = Response.mk 400 (RespBody.errorMsg "Invalid coordinates")) := by
  obtain ⟨qlat, qlng, qrad⟩ := q
  obtain ⟨rlat, rlng, rrad, rsince⟩ := qr
  have hcondition : ∀ la ln : String,
      ((∃ x, parseFloat la = JsNum.num x ∧ (x < -90 ∨ 90 < x)) ∨
       (∃ y, parseFloat ln = JsNum.num y ∧ (y < -180 ∨ 180 < y))) →
      (jsLt (parseFloat la) (-90) || jsGt (parseFloat la) 90
        || jsLt (parseFloat ln) (-180) || jsGt (parseFloat ln) 180) = true := by
    intro la ln hr
    rcases hr with ⟨x, hpf, hx⟩ | ⟨y, hpf, hy⟩ <;> rw [hpf] <;>
      simp only [jsLt, jsGt, Bool.or_eq_true, decide_eq_true_eq] <;> tauto
  refine ⟨?_, ?_, ?_, ?_⟩
  · intro h
    rcases h with h | h
    · dsimp only at h
      subst h
      cases qlng <;> rfl
    · dsimp only at h
      subst h
      cases qlat <;> rfl
  · intro h
    rcases h with h | h
    · dsimp only at h
      subst h
      cases rlng <;> rfl
    · dsimp only at h
      subst h
      cases rlat <;> rfl
  · intro la ln hla hln hne1 hne2 hr
    dsimp only at hla hln
    subst hla
    subst hln
    simp only [nearbyHandler]
    rw [if_neg (fun hor => hor.elim hne1 hne2)]
    rw [if_pos (hcondition la ln hr)]
  · intro la ln hla hln hne1 hne2 hr
    dsimp only at hla hln
    subst hla
    subst hln
    simp only [recentHandler]
    rw [if_neg (fun hor => hor.elim hne1 hne2)]
    rw [if_pos (hcondition la ln hr)]

/-- Witness for C6: concrete requests exercising the missing-parameter
branch and the out-of-range branch of both handlers. -/
theorem request_validation_fail_fast_witness :
    nearbyHandler [] ⟨none, some "0", none⟩
      = Response.mk 400 (RespBody.errorMsg "Missing required parameters: lat, lng")
    ∧ recentHandler [] 0 ⟨some "0", none, none, none⟩
      = Response.mk 400 (RespBody.errorMsg "Missing required parameters: lat, lng")
    ∧ nearbyHandler [] ⟨some "91", some "0", none⟩
      = Response.mk 400 (RespBody.errorMsg "Invalid coordinates")
    ∧ recentHandler [] 0 ⟨some "0", some "181", none, none⟩
      = Response.mk 400 (RespBody.errorMsg "Invalid coordinates") := by
  refine ⟨?_, ?_, ?_, ?_⟩
  · exact (request_validation_fail_fast [] 0 ⟨none, some "0", none⟩
      ⟨some "0", none, none, none⟩).1 (Or.inl rfl)
  · exact (request_validation_fail_fast [] 0 ⟨none, some "0", none⟩
      ⟨some "0", none, none, none⟩).2.1 (Or.inr rfl)
  · exact (request_validation_fail_fast [] 0 ⟨some "91", some "0", none⟩
      ⟨some "0", none, none, none⟩).2.2.1 "91" "0" rfl rfl (by decide) (by decide)
      (Or.inl ⟨91, by simp +decide [parseFloat, parseFloatCore, skipWs, isWs,
        readDigits, readExp, startsWithInf], Or.inr (by norm_num)⟩)
  · exact (request_validation_fail_fast [] 0 ⟨none, some "0", none⟩
      ⟨some "0", some "181", none, none⟩).2.2.2 "0" "181" rfl rfl
      (by decide) (by decide)
      (Or.inr ⟨181, by simp +decide [parseFloat, parseFloatCore, skipWs, isWs,
        readDigits, readExp, startsWithInf], Or.inr (by norm_num)⟩)

/-- A concrete approved incident at the origin, used by witnesses. -/
def testIncident : Incident := ⟨0, 0, 0, Moderation.approved⟩

/-- Counterexample to C8 as stated: a nearby request with the malformed
radius "abc" and valid coordinates is answered HTTP 200 with an empty
array — it is not rejected with HTTP 400, and the repository is fetched. -/
theorem malformed_radius_counterexample :
    nearbyHandler [] ⟨some "0", some "0", some "abc"⟩
      = Response.mk 200 (RespBody.incidents [])
    ∧ (nearbyHandler [] ⟨some "0", some "0", some "abc"⟩).status ≠ 400 := by
  have h : nearbyHandler [] ⟨some "0", some "0", some "abc"⟩
      = Response.mk 200 (RespBody.incidents []) := by
    simp +decide [nearbyHandler, parseFloat, parseFloatCore, skipWs, isWs,
      readDigits, readExp, startsWithInf, jsLt, jsGt, jsLe, jsDistance,
      sortByTsDesc]
  exact ⟨h, by rw [h]; decide⟩

/-- C8 (amended): the handlers perform no radius validation at all: a
nearby/recent request whose radius parses to NaN is not rejected — the
repository is fetched and the response is HTTP 200 with an empty array,
since no distance compares ≤ NaN. -/
theorem malformed_radius_not_rejected (repo : List Incident) (now : ℤ)
    (la ln rs : String) (x y : ℚ)
    (hne1 : la ≠ "") (hne2 : ln ≠ "")
    (hla : parseFloat la = JsNum.num x) (hln : parseFloat ln = JsNum.num y)
    (hx1 : -90 ≤ x) (hx2 : x ≤ 90) (hy1 : -180 ≤ y) (hy2 : y ≤ 180)
    (hrs : parseFloat rs = JsNum.nan) :
    nearbyHandler repo ⟨some la, some ln, some rs⟩
      = Response.mk 200 (RespBody.incidents [])
    ∧ recentHandler repo now ⟨some la, some ln, some rs, none⟩
      = Response.mk 200 (RespBody.incidents []) := by
  have hcond : (jsLt (parseFloat la) (-90) || jsGt (parseFloat la) 90
      || jsLt (parseFloat ln) (-180) || jsGt (parseFloat ln) 180) = false := by
    rw [hla, hln]
    simp only [jsLt, jsGt, Bool.or_eq_false_iff, decide_eq_false_iff_not, not_lt]
    tauto
  constructor
  · simp only [nearbyHandler]
    rw [if_neg (fun hor => hor.elim hne1 hne2)]
    rw [if_neg (by rw [hcond]; exact Bool.false_ne_true)]
    refine congrArg (fun l => Response.mk 200 (RespBody.incidents l)) ?_
    apply filter_false_of_pred_false
    intro inc
    rw [hrs, jsLe_nan]
  · simp only [recentHandler]
    rw [if_neg (fun hor => hor.elim hne1 hne2)]
    rw [if_neg (by rw [hcond]; exact Bool.false_ne_true)]
    refine congrArg (fun l => Response.mk 200 (RespBody.incidents l)) ?_
    apply filter_false_of_pred_false
    intro inc
    rw [hrs, jsLe_nan]

/-- Witness for the amended C8 at a nonempty repository. -/
theorem malformed_radius_not_rejected_witness :
    nearbyHandler [testIncident] ⟨some "0", some "0", some "abc"⟩
      = Response.mk 200 (RespBody.incidents [])
    ∧ recentHandler [testIncident] 0 ⟨some "0", some "0", some "abc", none⟩
      = Response.mk 200 (RespBody.incidents []) :=
  malformed_radius_not_rejected [testIncident] 0 "0" "0" "abc" 0 0
    (by decide) (by decide)
    (by simp +decide [parseFloat, parseFloatCore, skipWs, isWs, readDigits,
      readExp, startsWithInf])
    (by simp +decide [parseFloat, parseFloatCore, skipWs, isWs, readDigits,
      readExp, startsWithInf])
    (by norm_num) (by norm_num) (by norm_num) (by norm_num)
    (by simp +decide [parseFloat, parseFloatCore, skipWs, isWs, readDigits,
      readExp, startsWithInf])

/-- Counterexample to C9 as stated: lat is a non-numeric string (NaN),
but lng parses to 999, which is out of range, so the handler answers
HTTP 400 "Invalid coordinates" rather than 200 with an empty array. -/
theorem nan_coordinate_counterexample :
    nearbyHandler [] ⟨some "abc", some "999", none⟩
      = Response.mk 400 (RespBody.errorMsg "Invalid coordinates")
    ∧ (nearbyHandler [] ⟨some "abc", some "999", none⟩).status ≠ 200 := by
  have h : nearbyHandler [] ⟨some "abc", some "999", none⟩
      = Response.mk 400 (RespBody.errorMsg "Invalid coordinates") := by
    simp +decide [nearbyHandler, parseFloat, parseFloatCore, skipWs, isWs,
      readDigits, readExp, startsWithInf, jsLt, jsGt]
  exact ⟨h, by rw [h]; decide⟩

/-- C9 (amended): a nearby request in which lat or lng is a present,
non-empty, non-numeric string (parsing to NaN) is not rejected by the
range validation, provided whichever coordinate does parse to a number is
within range: the handler responds HTTP 200 with an empty array for every
repository state and radius, because NaN fails every range comparison and
produces a NaN distance failing every distance ≤ radius test. -/
theorem nan_coordinates_yield_empty (repo : List Incident) (la ln : String)
    (rad : Option String) (hne1 : la ≠ "") (hne2 : ln ≠ "")
    (hnan : parseFloat la = JsNum.nan ∨ parseFloat ln = JsNum.nan)
    (hlat : parseFloat la = JsNum.nan
      ∨ ∃ x, parseFloat la = JsNum.num x ∧ -90 ≤ x ∧ x ≤ 90)
    (hlng : parseFloat ln = JsNum.nan
      ∨ ∃ y, parseFloat ln = JsNum.num y ∧ -180 ≤ y ∧ y ≤ 180) :
    nearbyHandler repo ⟨some la, some ln, rad⟩
      = Response.mk 200 (RespBody.incidents []) := by
  have hla2 : jsLt (parseFloat la) (-90) = false
      ∧ jsGt (parseFloat la) 90 = false := by
    rcases hlat with h | ⟨x, hx, hx1, hx2⟩
    · rw [h]; exact ⟨rfl, rfl⟩
    · rw [hx]
      simp only [jsLt, jsGt, decide_eq_false_iff_not, not_lt]
      exact ⟨hx1, hx2⟩
  have hln2 : jsLt (parseFloat ln) (-180) = false
      ∧ jsGt (parseFloat ln) 180 = false := by
    rcases hlng with h | ⟨y, hy, hy1, hy2⟩
    · rw [h]; exact ⟨rfl, rfl⟩
    · rw [hy]
      simp only [jsLt, jsGt, decide_eq_false_iff_not, not_lt]
      exact ⟨hy1, hy2⟩
  simp only [nearbyHandler]
  rw [if_neg (fun hor => hor.elim hne1 hne2)]
  rw [if_neg (by simp [hla2.1, hla2.2, hln2.1, hln2.2])]
  refine congrArg (fun l => Response.mk 200 (RespBody.incidents l)) ?_
  apply filter_false_of_pred_false
  intro inc
  rcases hnan with h | h
  · rw [h, jsDistance_nan_left, jsLe_none]
  · rw [h, jsDistance_nan_right, jsLe_none]

/-- Witness for the amended C9 at a nonempty repository. -/
theorem nan_coordinates_yield_empty_witness :
    nearbyHandler [testIncident] ⟨some "abc", some "0", none⟩
      = Response.mk 200 (RespBody.incidents []) :=
  nan_coordinates_yield_empty [testIncident] "abc" "0" none (by decide) (by decide)
    (Or.inl (by simp +decide [parseFloat, parseFloatCore, skipWs, isWs,
      readDigits, readExp, startsWithInf]))
    (Or.inl (by simp +decide [parseFloat, parseFloatCore, skipWs, isWs,
      readDigits, readExp, startsWithInf]))
    (Or.inr ⟨0, by simp +decide [parseFloat, parseFloatCore, skipWs, isWs,
      readDigits, readExp, startsWithInf], by norm_num, by norm_num⟩)
